import Mathlib

/-!
Shallow embedding of `src/invoice_service.py` (invoice pricing calculator).
Money amounts (Python floats) are modelled as exact rationals `ℚ`; strings
are Lean `String`; Python dicts become association lists looked up with
`List.lookup`; the `Optional[str]` coupon becomes `Option String`; the
possibly-`None` invoice argument of `_validate` / `compute_total` becomes
`Option Invoice`; `raise ValueError(msg)` becomes `Except.error msg`.
-/

-- Batteries seals rational arithmetic; re-open it so that concrete
-- invoices can be evaluated by `decide`.
attribute [local semireducible] Rat.add Rat.mul Rat.sub Rat.inv Rat.ofScientific

deriving instance DecidableEq for Except

/-- Python's `str.strip()`: drop leading and trailing whitespace.  Stated
structurally over the character list so that it evaluates by reduction. -/
def strip (s : String) : String :=
  String.mk (((s.data.dropWhile Char.isWhitespace).reverse.dropWhile
    Char.isWhitespace).reverse)

/-- Mirrors the Python dataclass `LineItem`. -/
structure LineItem where
  sku : String
  category : String
  unit_price : ℚ
  qty : Int
  fragile : Bool
deriving Repr, DecidableEq

/-- Mirrors the Python dataclass `Invoice`. -/
structure Invoice where
  invoice_id : String
  customer_id : String
  country : String
  membership : String
  coupon : Option String
  items : List LineItem
deriving Repr, DecidableEq

namespace InvoiceService

/-- `InvoiceService.COUPON_RATES`. -/
def COUPON_RATES : List (String × ℚ) :=
  [("WELCOME10", 0.10), ("VIP20", 0.20), ("STUDENT5", 0.05)]

/-- `InvoiceService.SHIPPING_CONFIG`; the `"DEFAULT"` entry is `(200, 25)`. -/
def SHIPPING_CONFIG : List (String × (ℚ × ℚ)) :=
  [("TH", (500, 60)), ("JP", (4000, 600)), ("US", (100, 15)), ("DEFAULT", (200, 25))]

/-- `InvoiceService.US_SHIPPING_TIERS`. -/
def US_SHIPPING_TIERS : List (ℚ × ℚ) := [(100, 15), (300, 8)]

/-- `InvoiceService.TAX_RATES`; the `"DEFAULT"` entry is `0.05`. -/
def TAX_RATES : List (String × ℚ) :=
  [("TH", 0.07), ("JP", 0.10), ("US", 0.08), ("DEFAULT", 0.05)]

/-- `InvoiceService.MEMBERSHIP_DISCOUNTS`. -/
def MEMBERSHIP_DISCOUNTS : List (String × ℚ) :=
  [("gold", 0.03), ("platinum", 0.05)]

/-- The per-item checks of the loop body in `_validate`, in source order
(sku, qty, price, category). -/
def item_problems (it : LineItem) : List String :=
  (if it.sku = "" then ["Item sku is missing"] else [])
    ++ (if it.qty ≤ 0 then ["Invalid qty for " ++ it.sku] else [])
    ++ (if it.unit_price < 0 then ["Invalid price for " ++ it.sku] else [])
    ++ (if it.category = "book" ∨ it.category = "food" ∨ it.category = "electronics"
          ∨ it.category = "other" then [] else ["Unknown category for " ++ it.sku])

/-- `InvoiceService._validate`.  Python's `if inv is None` early return is the
`none` branch; `not s` on a `str` is the empty-string test.  The item loop
appends each item's problems in turn, modelled by a left fold. -/
def validate (oinv : Option Invoice) : List String :=
  match oinv with
  | none => ["Invoice is missing"]
  | some inv =>
    let problems :=
      (if inv.invoice_id = "" then ["Missing invoice_id"] else [])
        ++ (if inv.customer_id = "" then ["Missing customer_id"] else [])
        ++ (if inv.items = [] then ["Invoice must contain items"] else [])
    inv.items.foldl (fun acc it => acc ++ item_problems it) problems

/-- `InvoiceService._calculate_subtotal_and_fragile_fee`: a single pass that
accumulates `subtotal += unit_price * qty` and, when `fragile`,
`fragile_fee += 5.0 * qty`. -/
def calculate_subtotal_and_fragile_fee (items : List LineItem) : ℚ × ℚ :=
  items.foldl
    (fun acc it =>
      (acc.1 + it.unit_price * (it.qty : ℚ),
       if it.fragile then acc.2 + 5 * (it.qty : ℚ) else acc.2))
    (0, 0)

/-- The `for threshold, fee in self.US_SHIPPING_TIERS` loop of
`_calculate_shipping`: return the fee of the first tier with
`subtotal < threshold`, else `0.0` after the loop. -/
def us_tier_fee (subtotal : ℚ) : List (ℚ × ℚ) → ℚ
  | [] => 0
  | (threshold, fee) :: rest =>
    if subtotal < threshold then fee else us_tier_fee subtotal rest

/-- `InvoiceService._calculate_shipping`.  For non-US countries,
`SHIPPING_CONFIG.get(country, SHIPPING_CONFIG["DEFAULT"])` is the lookup with
fallback `(200, 25)`, the value of the table's `"DEFAULT"` entry. -/
def calculate_shipping (country : String) (subtotal : ℚ) : ℚ :=
  if country = "US" then
    us_tier_fee subtotal US_SHIPPING_TIERS
  else
    let config := (List.lookup country SHIPPING_CONFIG).getD (200, 25)
    if subtotal < config.1 then config.2 else 0

/-- `InvoiceService._calculate_discount`.  The Python function mutates the
caller's `warnings` list (empty at the call site in `compute_total`); here it
returns the pair (discount, warnings appended by this call).  Python's
`if inv.coupon:` is true only for a present, non-empty coupon string. -/
def calculate_discount (inv : Invoice) (subtotal : ℚ) : ℚ × List String :=
  let discount : ℚ :=
    match List.lookup inv.membership MEMBERSHIP_DISCOUNTS with
    | some rate => subtotal * rate
    | none => if subtotal > 3000 then 20 else 0
  match inv.coupon with
  | some c =>
    if c = "" then (discount, [])
    else
      let code := strip c
      match List.lookup code COUPON_RATES with
      | some rate => (discount + subtotal * rate, [])
      | none => (discount, ["Unknown coupon"])
  | none => (discount, [])

/-- `InvoiceService._calculate_tax`:
`TAX_RATES.get(country, TAX_RATES["DEFAULT"])`, with fallback rate `0.05`. -/
def calculate_tax (country : String) (taxable_amount : ℚ) : ℚ :=
  taxable_amount * (List.lookup country TAX_RATES).getD 0.05

/-- `InvoiceService.compute_total`.  `raise ValueError("; ".join(problems))`
becomes `Except.error`; on success the pair `(total, warnings)` is returned.
The `none` arm inside the valid branch is unreachable (a `none` invoice always
yields the problem "Invoice is missing"). -/
def compute_total (oinv : Option Invoice) : Except String (ℚ × List String) :=
  let problems := validate oinv
  if problems = [] then
    match oinv with
    | none => Except.error "Invoice is missing"
    | some inv =>
      let sf := calculate_subtotal_and_fragile_fee inv.items
      let subtotal := sf.1
      let fragile_fee := sf.2
      let shipping := calculate_shipping inv.country subtotal
      let dw := calculate_discount inv subtotal
      let discount := dw.1
      let tax := calculate_tax inv.country (subtotal - discount)
      let total := max 0 (subtotal + shipping + fragile_fee + tax - discount)
      let warnings := dw.2 ++
        (if subtotal > 10000 ∧ inv.membership ≠ "gold" ∧ inv.membership ≠ "platinum"
          then ["Consider membership upgrade"] else [])
      Except.ok (total, warnings)
  else
    Except.error (String.intercalate "; " problems)

/-- `inv` with its coupon removed; used to name the membership part of the
discount in isolation. -/
def without_coupon (inv : Invoice) : Invoice := { inv with coupon := none }

/-- The end-to-end scenario invoice of the spec: one item with
unit_price 1000, qty 5, category "other", not fragile; country "TH",
empty membership, no coupon. -/
def th_invoice : Invoice :=
  { invoice_id := "INV-1", customer_id := "CUST-1", country := "TH",
    membership := "", coupon := none,
    items := [{ sku := "SKU-1", category := "other", unit_price := 1000,
                qty := 5, fragile := false }] }

/-- An invoice with an empty `invoice_id` and an empty item list. -/
def missing_id_invoice : Invoice :=
  { invoice_id := "", customer_id := "CUST-2", country := "TH",
    membership := "", coupon := none, items := [] }

/-- A member invoice (membership "gold") without a coupon. -/
def gold_invoice : Invoice :=
  { invoice_id := "INV-3", customer_id := "CUST-3", country := "US",
    membership := "gold", coupon := none,
    items := [{ sku := "S", category := "book", unit_price := 100,
                qty := 1, fragile := false }] }

/-- An otherwise valid invoice with two items whose quantities are both
non-positive. -/
def two_bad_qty_invoice : Invoice :=
  { invoice_id := "INV-4", customer_id := "CUST-4", country := "TH",
    membership := "", coupon := none,
    items := [{ sku := "A", category := "book", unit_price := 10,
                qty := 0, fragile := false },
              { sku := "B", category := "book", unit_price := 10,
                qty := -1, fragile := false }] }

/-- A valid high-value invoice with an unknown coupon and no membership. -/
def big_invoice : Invoice :=
  { invoice_id := "INV-5", customer_id := "CUST-5", country := "TH",
    membership := "", coupon := some "BOGUS",
    items := [{ sku := "S", category := "other", unit_price := 20000,
                qty := 1, fragile := false }] }

/-- A valid high-value invoice whose membership is "Gold" (wrong case). -/
def cap_gold_invoice : Invoice :=
  { invoice_id := "INV-6", customer_id := "CUST-6", country := "TH",
    membership := "Gold", coupon := none,
    items := [{ sku := "S", category := "other", unit_price := 20000,
                qty := 1, fragile := false }] }

/-- A valid invoice whose coupon is present but is the empty string. -/
def empty_coupon_invoice : Invoice :=
  { invoice_id := "INV-7", customer_id := "CUST-7", country := "TH",
    membership := "", coupon := some "",
    items := [{ sku := "S", category := "book", unit_price := 100,
                qty := 1, fragile := false }] }

/-- Pre-discount subtotal of an invoice. -/
def subtotal_of (inv : Invoice) : ℚ :=
  (calculate_subtotal_and_fragile_fee inv.items).1

/-- Fragile-handling fee of an invoice. -/
def fragile_fee_of (inv : Invoice) : ℚ :=
  (calculate_subtotal_and_fragile_fee inv.items).2

/-- Total discount of an invoice. -/
def discount_of (inv : Invoice) : ℚ :=
  (calculate_discount inv (subtotal_of inv)).1

/-- Warnings appended by the discount step of an invoice. -/
def coupon_warnings_of (inv : Invoice) : List String :=
  (calculate_discount inv (subtotal_of inv)).2

theorem foldl_append_eq (f : LineItem → List String) (l : List LineItem)
    (init : List String) :
    l.foldl (fun acc it => acc ++ f it) init = init ++ l.flatMap f := by
  induction l generalizing init with
  | nil => simp
  | cons a t ih =>
    rw [List.foldl_cons, ih]
    simp [List.append_assoc]

theorem validate_some_eq (inv : Invoice) :
    validate (some inv)
      = ((if inv.invoice_id = "" then ["Missing invoice_id"] else [])
          ++ (if inv.customer_id = "" then ["Missing customer_id"] else [])
          ++ (if inv.items = [] then ["Invoice must contain items"] else []))
        ++ inv.items.flatMap item_problems := by
  simp only [validate]
  exact foldl_append_eq item_problems inv.items _

theorem compute_total_some_ok (inv : Invoice) (h : validate (some inv) = []) :
    compute_total (some inv) = Except.ok
      (max 0 (subtotal_of inv + calculate_shipping inv.country (subtotal_of inv)
          + fragile_fee_of inv
          + calculate_tax inv.country (subtotal_of inv - discount_of inv)
          - discount_of inv),
       coupon_warnings_of inv ++
        (if subtotal_of inv > 10000
            ∧ inv.membership ≠ "gold" ∧ inv.membership ≠ "platinum"
          then ["Consider membership upgrade"] else [])) := by
  simp only [compute_total, h, if_pos, subtotal_of, fragile_fee_of, discount_of,
    coupon_warnings_of]

theorem coupon_warnings_cases (inv : Invoice) (s : ℚ) :
    (calculate_discount inv s).2 = []
      ∨ (calculate_discount inv s).2 = ["Unknown coupon"] := by
  unfold calculate_discount
  cases hc : inv.coupon with
  | none => simp
  | some c =>
    by_cases hce : c = ""
    · simp [hce]
    · cases hl : List.lookup (strip c) COUPON_RATES <;> simp [hce, hl]

end InvoiceService


namespace InvoiceService

/-- C1: for every invoice that passes validation, `compute_total` returns
`total = max(0, subtotal + shipping + fragile_fee + tax - discount)` with
`tax = (subtotal - discount) * tax_rate(country, fallback 0.05)`, the taxable
amount `subtotal - discount` not being clamped before the multiplication, and
the returned total is always nonnegative. -/
theorem total_formula_and_nonneg (inv : Invoice) (h : validate (some inv) = []) :
    (∃ w, compute_total (some inv) = Except.ok
      (max 0 (subtotal_of inv + calculate_shipping inv.country (subtotal_of inv)
          + fragile_fee_of inv
          + (subtotal_of inv - discount_of inv)
              * (List.lookup inv.country TAX_RATES).getD 0.05
          - discount_of inv), w))
    ∧ (∀ t w, compute_total (some inv) = Except.ok (t, w) → 0 ≤ t) := by
  have hok := compute_total_some_ok inv h
  constructor
  · refine ⟨coupon_warnings_of inv ++
      (if subtotal_of inv > 10000
          ∧ inv.membership ≠ "gold" ∧ inv.membership ≠ "platinum"
        then ["Consider membership upgrade"] else []), ?_⟩
    rw [hok]
    simp [calculate_tax]
  · intro t w hw
    rw [hok] at hw
    have := (Except.ok.injEq _ _).mp hw
    have ht : t = max 0 (subtotal_of inv
        + calculate_shipping inv.country (subtotal_of inv) + fragile_fee_of inv
        + calculate_tax inv.country (subtotal_of inv - discount_of inv)
        - discount_of inv) := (Prod.mk.injEq _ _ _ _).mp this.symm |>.1
    rw [ht]
    exact le_max_left 0 _

theorem total_formula_and_nonneg_witness : 0 ≤ (5328.6 : ℚ) :=
  (total_formula_and_nonneg th_invoice (by decide)).2 5328.6 [] (by decide)

/-- C2: `compute_total` fails if and only if the validator produces at least
one problem; the error payload is exactly the problems joined by "; " in
encountered order, and when it fails no priced result is returned (the result
is the bare error). -/
theorem error_iff_problems (oinv : Option Invoice) :
    (validate oinv ≠ [] →
      compute_total oinv = Except.error (String.intercalate "; " (validate oinv)))
    ∧ (validate oinv = [] → ∃ r, compute_total oinv = Except.ok r) := by
  constructor
  · intro h
    simp [compute_total, h]
  · intro h
    cases oinv with
    | none => simp [validate] at h
    | some inv => exact ⟨_, compute_total_some_ok inv h⟩

theorem error_iff_problems_witness :
    compute_total (some missing_id_invoice)
      = Except.error (String.intercalate "; " (validate (some missing_id_invoice))) :=
  (error_iff_problems (some missing_id_invoice)).1 (by decide)

/-- C3: US shipping scans the tier list ((100,15),(300,8)) in order and
returns the fee of the first tier with `subtotal < threshold`, else 0
(50 ↦ 15, 150 ↦ 8, 500 ↦ 0); any other country uses its single
(threshold, fee) entry of the shipping table, with the DEFAULT entry
(200, 25) when absent, charging the fee exactly when `subtotal < threshold`. -/
theorem shipping_spec :
    (∀ s : ℚ, calculate_shipping "US" s
        = if s < 100 then 15 else if s < 300 then 8 else 0)
    ∧ (∀ (c : String) (s : ℚ), c ≠ "US" → c ≠ "TH" → c ≠ "JP" →
        calculate_shipping c s = if s < 200 then 25 else 0)
    ∧ (∀ s : ℚ, calculate_shipping "TH" s = if s < 500 then 60 else 0)
    ∧ (∀ s : ℚ, calculate_shipping "JP" s = if s < 4000 then 600 else 0)
    ∧ calculate_shipping "US" 50 = 15
    ∧ calculate_shipping "US" 150 = 8
    ∧ calculate_shipping "US" 500 = 0 := by
  refine ⟨?_, ?_, ?_, ?_, by decide, by decide, by decide⟩
  · intro s
    simp [calculate_shipping, US_SHIPPING_TIERS, us_tier_fee]
  · intro c s h1 h2 h3
    have e1 : (c == "US") = false := beq_eq_false_iff_ne.mpr h1
    have e2 : (c == "TH") = false := beq_eq_false_iff_ne.mpr h2
    have e3 : (c == "JP") = false := beq_eq_false_iff_ne.mpr h3
    by_cases hd : c = "DEFAULT"
    · simp [calculate_shipping, SHIPPING_CONFIG, List.lookup, h1, e1, e2, e3, hd]
    · have ed : (c == "DEFAULT") = false := beq_eq_false_iff_ne.mpr hd
      simp [calculate_shipping, SHIPPING_CONFIG, List.lookup, h1, e1, e2, e3, ed]
  · intro s
    simp [calculate_shipping, SHIPPING_CONFIG, List.lookup]
  · intro s
    simp [calculate_shipping, SHIPPING_CONFIG, List.lookup]

theorem shipping_spec_witness :
    calculate_shipping "FR" 100 = if (100 : ℚ) < 200 then 25 else 0 :=
  shipping_spec.2.1 "FR" 100 (by decide) (by decide) (by decide)

/-- C4: the membership part of the discount is mutually exclusive with the
flat 20: a membership found in the table contributes `subtotal * rate` with no
flat 20 added, and the flat 20 only applies when the membership is not in the
table and `subtotal > 3000`; in particular "gold" with subtotal 4000 gives a
discount of exactly 120. -/
theorem membership_discount_exclusive :
    (∀ (inv : Invoice) (s r : ℚ), inv.coupon = none →
      List.lookup inv.membership MEMBERSHIP_DISCOUNTS = some r →
      (calculate_discount inv s).1 = s * r)
    ∧ (∀ (inv : Invoice) (s : ℚ), inv.coupon = none →
      List.lookup inv.membership MEMBERSHIP_DISCOUNTS = none → 3000 < s →
      (calculate_discount inv s).1 = 20)
    ∧ (∀ (inv : Invoice) (s : ℚ), inv.coupon = none →
      List.lookup inv.membership MEMBERSHIP_DISCOUNTS = none → s ≤ 3000 →
      (calculate_discount inv s).1 = 0)
    ∧ (calculate_discount gold_invoice 4000).1 = 120 := by
  refine ⟨?_, ?_, ?_, by decide⟩
  · intro inv s r hc hm
    simp [calculate_discount, hc, hm]
  · intro inv s hc hm hs
    simp [calculate_discount, hc, hm, hs]
  · intro inv s hc hm hs
    simp [calculate_discount, hc, hm, not_lt.mpr hs]

theorem membership_discount_exclusive_witness :
    (calculate_discount gold_invoice 4000).1 = 4000 * 0.03 :=
  membership_discount_exclusive.1 gold_invoice 4000 0.03 rfl (by decide)

/-- C5 counterexample: `empty_coupon_invoice` has a non-null coupon (the empty
string) that is not in the coupon table, yet `compute_total` succeeds with no
"Unknown coupon" warning, contradicting the claim that every non-null unknown
coupon appends the warning exactly once. -/
theorem coupon_claim_counterexample :
    empty_coupon_invoice.coupon = some ""
    ∧ List.lookup (strip "") COUPON_RATES = none
    ∧ compute_total (some empty_coupon_invoice) = Except.ok (167, []) := by
  refine ⟨rfl, by decide, by decide⟩

/-- C5 (amended): for every invoice whose coupon is non-null AND non-empty,
the coupon is stripped and looked up: a known code adds `subtotal * rate` to
the membership discount with no warning; an unknown code contributes 0 and
appends exactly the warning "Unknown coupon" once.  When the coupon is null
or the empty string, neither happens. -/
theorem coupon_discount_amended (inv : Invoice) (s : ℚ) :
    (∀ c, inv.coupon = some c → c ≠ "" →
      ((∀ r, List.lookup (strip c) COUPON_RATES = some r →
        calculate_discount inv s
          = ((calculate_discount (without_coupon inv) s).1 + s * r, []))
      ∧ (List.lookup (strip c) COUPON_RATES = none →
        calculate_discount inv s
          = ((calculate_discount (without_coupon inv) s).1, ["Unknown coupon"]))))
    ∧ ((inv.coupon = none ∨ inv.coupon = some "") →
        calculate_discount inv s
          = ((calculate_discount (without_coupon inv) s).1, [])) := by
  constructor
  · intro c hc hce
    constructor
    · intro r hr
      simp [calculate_discount, without_coupon, hc, hce, hr]
    · intro hr
      simp [calculate_discount, without_coupon, hc, hce, hr]
  · rintro (hc | hc) <;> simp [calculate_discount, without_coupon, hc]

theorem coupon_discount_amended_witness :
    calculate_discount big_invoice 20000
      = ((calculate_discount (without_coupon big_invoice) 20000).1,
          ["Unknown coupon"]) :=
  ((coupon_discount_amended big_invoice 20000).1 "BOGUS" rfl (by decide)).2 (by decide)

end InvoiceService

namespace InvoiceService

/-- C6: validation is exhaustive and order-preserving: the problem list is the
invoice-level problems followed by each item's problems in item order (no
short-circuit); two items with bad quantities give two qty messages in item
order, and empty invoice_id plus empty items give an error containing
"Missing invoice_id" before "Invoice must contain items". -/
theorem validation_exhaustive_ordered :
    (∀ inv : Invoice, validate (some inv)
        = ((if inv.invoice_id = "" then ["Missing invoice_id"] else [])
            ++ (if inv.customer_id = "" then ["Missing customer_id"] else [])
            ++ (if inv.items = [] then ["Invoice must contain items"] else []))
          ++ inv.items.flatMap item_problems)
    ∧ validate (some two_bad_qty_invoice)
        = ["Invalid qty for A", "Invalid qty for B"]
    ∧ compute_total (some missing_id_invoice)
        = Except.error "Missing invoice_id; Invoice must contain items" :=
  ⟨validate_some_eq, by decide, by decide⟩

/-- C7: for a valid invoice, "Consider membership upgrade" is in the returned
warnings iff the pre-discount subtotal exceeds 10000 and membership is
neither "gold" nor "platinum"; the list is the coupon warnings followed by
the upgrade warning, so it is one of [], ["Unknown coupon"],
["Consider membership upgrade"], or the two in that order. -/
theorem upgrade_warning_iff (inv : Invoice) (h : validate (some inv) = [])
    (t : ℚ) (ws : List String)
    (hok : compute_total (some inv) = Except.ok (t, ws)) :
    ws = coupon_warnings_of inv ++
        (if subtotal_of inv > 10000
            ∧ inv.membership ≠ "gold" ∧ inv.membership ≠ "platinum"
          then ["Consider membership upgrade"] else [])
    ∧ ("Consider membership upgrade" ∈ ws
        ↔ (subtotal_of inv > 10000
            ∧ inv.membership ≠ "gold" ∧ inv.membership ≠ "platinum"))
    ∧ (ws = [] ∨ ws = ["Unknown coupon"] ∨ ws = ["Consider membership upgrade"]
        ∨ ws = ["Unknown coupon", "Consider membership upgrade"]) := by
  have hc := compute_total_some_ok inv h
  rw [hok] at hc
  have hpair := (Except.ok.injEq _ _).mp hc
  have hws := ((Prod.mk.injEq _ _ _ _).mp hpair).2
  subst hws
  have hcw : coupon_warnings_of inv = []
      ∨ coupon_warnings_of inv = ["Unknown coupon"] :=
    coupon_warnings_cases inv (subtotal_of inv)
  refine ⟨rfl, ?_, ?_⟩
  · rcases hcw with h1 | h1 <;> rw [h1] <;>
      by_cases hcond : (subtotal_of inv > 10000
        ∧ inv.membership ≠ "gold" ∧ inv.membership ≠ "platinum") <;>
      simp [hcond]
  · rcases hcw with h1 | h1 <;> rw [h1] <;>
      by_cases hcond : (subtotal_of inv > 10000
        ∧ inv.membership ≠ "gold" ∧ inv.membership ≠ "platinum") <;>
      simp [hcond]

theorem upgrade_warning_iff_witness :
    "Consider membership upgrade"
        ∈ (["Unknown coupon", "Consider membership upgrade"] : List String)
      ↔ (subtotal_of big_invoice > 10000
          ∧ big_invoice.membership ≠ "gold" ∧ big_invoice.membership ≠ "platinum") :=
  (upgrade_warning_iff big_invoice (by decide) 21378.6
    ["Unknown coupon", "Consider membership upgrade"] (by decide)).2.1

/-- C8: the end-to-end TH scenario: subtotal 5000, shipping 0, discount 20
(flat branch), tax (5000 - 20) * 0.07 = 348.6, total 5328.6, and no
warnings. -/
theorem end_to_end_th :
    calculate_subtotal_and_fragile_fee th_invoice.items = (5000, 0)
    ∧ calculate_shipping "TH" 5000 = 0
    ∧ calculate_discount th_invoice 5000 = (20, [])
    ∧ calculate_tax "TH" (5000 - 20) = 348.6
    ∧ compute_total (some th_invoice) = Except.ok (5328.6, []) := by
  decide

/-- C9: whenever `compute_total` succeeds, the warnings list has at most two
elements, drawn only from "Unknown coupon" and "Consider membership upgrade",
each appearing at most once. -/
theorem warnings_bounded (oinv : Option Invoice) (t : ℚ) (ws : List String)
    (hok : compute_total oinv = Except.ok (t, ws)) :
    ws.length ≤ 2
    ∧ (∀ w ∈ ws, w = "Unknown coupon" ∨ w = "Consider membership upgrade")
    ∧ ws.count "Unknown coupon" ≤ 1
    ∧ ws.count "Consider membership upgrade" ≤ 1 := by
  cases oinv with
  | none => simp [compute_total, validate] at hok
  | some inv =>
    by_cases h : validate (some inv) = []
    · have hc := compute_total_some_ok inv h
      rw [hok] at hc
      have hpair := (Except.ok.injEq _ _).mp hc
      have hws := ((Prod.mk.injEq _ _ _ _).mp hpair).2
      subst hws
      have hcw : coupon_warnings_of inv = []
          ∨ coupon_warnings_of inv = ["Unknown coupon"] :=
        coupon_warnings_cases inv (subtotal_of inv)
      rcases hcw with h1 | h1 <;> rw [h1] <;> split <;> decide
    · simp [compute_total, h] at hok

theorem warnings_bounded_witness : ([] : List String).count "Unknown coupon" ≤ 1 :=
  (warnings_bounded (some th_invoice) 5328.6 [] (by decide)).2.2.1

/-- C10: membership recognition is an exact, case-sensitive match against
"gold" and "platinum": any other membership string gets no rate from the
table, falls into the flat-20 branch when subtotal > 3000, and triggers the
upgrade warning when the subtotal exceeds 10000. -/
theorem membership_exact_match (m : String) (hg : m ≠ "gold") (hp : m ≠ "platinum") :
    List.lookup m MEMBERSHIP_DISCOUNTS = none
    ∧ (∀ (inv : Invoice) (s : ℚ), inv.membership = m → inv.coupon = none →
        3000 < s → (calculate_discount inv s).1 = 20)
    ∧ (∀ (inv : Invoice) (t : ℚ) (ws : List String), inv.membership = m →
        compute_total (some inv) = Except.ok (t, ws) →
        10000 < subtotal_of inv →
        "Consider membership upgrade" ∈ ws) := by
  have eg : (m == "gold") = false := beq_eq_false_iff_ne.mpr hg
  have ep : (m == "platinum") = false := beq_eq_false_iff_ne.mpr hp
  have hlook : List.lookup m MEMBERSHIP_DISCOUNTS = none := by
    simp [MEMBERSHIP_DISCOUNTS, List.lookup, eg, ep]
  refine ⟨hlook, ?_, ?_⟩
  · intro inv s hm hc hs
    have hl2 : List.lookup inv.membership MEMBERSHIP_DISCOUNTS = none := by
      rw [hm]; exact hlook
    simp [calculate_discount, hl2, hc, hs]
  · intro inv t ws hm hok hsub
    by_cases hv : validate (some inv) = []
    · have hc := compute_total_some_ok inv hv
      rw [hok] at hc
      have hpair := (Except.ok.injEq _ _).mp hc
      have hws := ((Prod.mk.injEq _ _ _ _).mp hpair).2
      subst hws
      have hcond : subtotal_of inv > 10000
          ∧ inv.membership ≠ "gold" ∧ inv.membership ≠ "platinum" :=
        ⟨hsub, by rw [hm]; exact hg, by rw [hm]; exact hp⟩
      rw [if_pos hcond]
      simp
    · simp [compute_total, hv] at hok

theorem membership_exact_match_witness :
    "Consider membership upgrade" ∈ (["Consider membership upgrade"] : List String) :=
  (membership_exact_match "Gold" (by decide) (by decide)).2.2 cap_gold_invoice
    21378.6 ["Consider membership upgrade"] rfl (by decide) (by decide)

end InvoiceService
